import Mathlib

/-!
Shallow embedding of the budget evaluation and monthly aggregation core of
src/main.py, a Flask + sqlite personal finance tracker, together with
theorems checking the specification claims against it.

Modelling conventions:
* sqlite rows are Lean structures; tables are lists kept in insertion order.
* REAL amounts are modelled as exact rationals.
* dates are (year, month, day) records; sqlite BETWEEN on the stored
  zero-padded ISO strings is the lexicographic order on these records.
* Python float(...) and datetime.strptime(..., "%Y-%m-%d") are modelled by
  pyFloat and parseDate; a raised ValueError surfaces as Except.error.
* flash(...) messages from the post-write budget checks are modelled as a
  structured message list returned next to the updated store.
-/

attribute [local semireducible] Rat.add Rat.sub Rat.mul Rat.inv Rat.ofScientific

deriving instance DecidableEq for Except

namespace Minorfinal

/-- Calendar date, as Python datetime.date. -/
structure Date where
  year : Nat
  month : Nat
  day : Nat
deriving DecidableEq, Repr

/-- Gregorian leap-year test, as used by datetime arithmetic. -/
def isLeap (y : Nat) : Bool :=
  (y % 4 == 0 && y % 100 != 0) || y % 400 == 0

/-- Number of days in a month, as realised by datetime.date arithmetic. -/
def daysInMonth (y m : Nat) : Nat :=
  if m = 2 then (if isLeap y then 29 else 28)
  else if m = 4 ∨ m = 6 ∨ m = 9 ∨ m = 11 then 30
  else 31

/-- A structurally valid calendar date. -/
def Date.Valid (d : Date) : Prop :=
  1 ≤ d.month ∧ d.month ≤ 12 ∧ 1 ≤ d.day ∧ d.day ≤ daysInMonth d.year d.month

instance (d : Date) : Decidable d.Valid := by
  unfold Date.Valid; infer_instance

/-- Order on dates; sqlite compares the stored zero-padded ISO strings,
which orders exactly like this lexicographic comparison. -/
def dateLE (a b : Date) : Bool :=
  decide (a.year < b.year ∨ (a.year = b.year ∧
    (a.month < b.month ∨ (a.month = b.month ∧ a.day ≤ b.day))))

/-- Subtracting timedelta(days=1) from a valid date. -/
def subOneDay (d : Date) : Date :=
  if 1 < d.day then ⟨d.year, d.month, d.day - 1⟩
  else if 1 < d.month then ⟨d.year, d.month - 1, daysInMonth d.year (d.month - 1)⟩
  else ⟨d.year - 1, 12, 31⟩

/-- Adding timedelta(days=1) to a valid date. -/
def addOneDay (d : Date) : Date :=
  if d.day < daysInMonth d.year d.month then ⟨d.year, d.month, d.day + 1⟩
  else if d.month < 12 then ⟨d.year, d.month + 1, 1⟩
  else ⟨d.year + 1, 1, 1⟩

/-- Subtracting timedelta(days=n). -/
def subDays (d : Date) : Nat → Date
  | 0 => d
  | n + 1 => subOneDay (subDays d n)

/-- Adding timedelta(days=n). -/
def addDays (d : Date) : Nat → Date
  | 0 => d
  | n + 1 => addOneDay (addDays d n)

/-- month_bounds (src/main.py:164): first day of the month, and the day
before the next month's first day, December rolling to January of y+1. -/
def month_bounds (y m : Nat) : Date × Date :=
  let first : Date := ⟨y, m, 1⟩
  let nxt : Date := if m = 12 then ⟨y + 1, 1, 1⟩ else ⟨y, m + 1, 1⟩
  (first, subOneDay nxt)

/-- The YYYY-MM month token of a date (when[:7], strftime %Y-%m). -/
def monthOf (d : Date) : Nat × Nat := (d.year, d.month)

/-- Python str.strip(). -/
def strip (s : String) : String :=
  (((s.toList.dropWhile Char.isWhitespace).reverse.dropWhile Char.isWhitespace).reverse).asString

/-- Python str.lower() (ASCII case folding). -/
def lower (s : String) : String :=
  (s.toList.map Char.toLower).asString

/-- Python `x or default` on an optional string form field: None and the
empty string are falsy. -/
def pyOr : Option String → String → String
  | none, d => d
  | some s, d => if s = "" then d else s

def TOTAL_BUDGET_KEY : String := "__TOTAL__"

def TOTAL_BUDGET_LABEL : String := "Total (All Categories)"

/-- _normalize_category (src/main.py:188): falsy input is "General";
otherwise strip, map the total aliases (case-insensitively) to the sentinel
key, and return anything else stripped with case preserved. -/
def normalize_category : Option String → String
  | none => "General"
  | some cat =>
    if cat = "" then "General"
    else if lower (strip cat) = "total" ∨ lower (strip cat) = "overall" ∨
        lower (strip cat) = "all" ∨ lower (strip cat) = "*" then
      TOTAL_BUDGET_KEY
    else strip cat

/-- Category as normalized at the expense-entry call site (src/main.py:207):
the raw field is defaulted to "Uncategorized" with `or` before normalizing. -/
def expense_entry_category (raw : Option String) : String :=
  normalize_category (some (pyOr raw "Uncategorized"))

/-- _display_category (src/main.py:196). -/
def display_category (cat : String) : String :=
  if cat = TOTAL_BUDGET_KEY then TOTAL_BUDGET_LABEL
  else if cat = "" then "Uncategorized" else cat

/-- Decimal digits to a number, most significant first. -/
def digitsToNat (cs : List Char) : Nat :=
  cs.foldl (fun a c => a * 10 + (c.toNat - 48)) 0

/-- Python float(s) on a string: optional surrounding whitespace and sign,
decimal digits with optional fraction and exponent; none models a raised
ValueError.  (Digit-group underscores and inf/nan spellings are not
modelled.) -/
def pyFloat (s : String) : Option ℚ :=
  let cs := (strip s).toList
  let signAndRest : ℚ × List Char :=
    match cs with
    | '-' :: r => (-1, r)
    | '+' :: r => (1, r)
    | _ => (1, cs)
  let sign := signAndRest.1
  let cs1 := signAndRest.2
  let intPart := cs1.takeWhile Char.isDigit
  let rest1 := cs1.dropWhile Char.isDigit
  let fracAndRest : List Char × List Char :=
    match rest1 with
    | '.' :: r => (r.takeWhile Char.isDigit, r.dropWhile Char.isDigit)
    | _ => ([], rest1)
  let fracPart := fracAndRest.1
  let rest2 := fracAndRest.2
  if intPart = [] ∧ fracPart = [] then none
  else
    let mantissa : ℚ :=
      sign * ((digitsToNat intPart : ℚ) + (digitsToNat fracPart : ℚ) / (10 : ℚ) ^ fracPart.length)
    match rest2 with
    | [] => some mantissa
    | e :: r =>
      if e = 'e' ∨ e = 'E' then
        let esignAndRest : ℤ × List Char :=
          match r with
          | '-' :: r2 => (-1, r2)
          | '+' :: r2 => (1, r2)
          | _ => (1, r)
        let eds := esignAndRest.2.takeWhile Char.isDigit
        let r2 := esignAndRest.2.dropWhile Char.isDigit
        if eds = [] ∨ r2 ≠ [] then none
        else some (mantissa * (10 : ℚ) ^ (esignAndRest.1 * (digitsToNat eds : ℤ)))
      else none

/-- float(request.form.get("amount") or 0): an absent or empty amount field
is the integer 0; any other string is parsed by float. -/
def pyFloatOr0 : Option String → Option ℚ
  | none => some 0
  | some s => if s = "" then some 0 else pyFloat s

/-- datetime.strptime(s, "%Y-%m-%d").date(): four-digit year, one- or
two-digit month and day, validated against the Gregorian calendar; none
models a raised ValueError. -/
def parseDate (s : String) : Option Date :=
  match s.toList.splitOn '-' with
  | [ys, ms, ds] =>
    if ys.length = 4 ∧ (ys.all Char.isDigit) = true ∧
        1 ≤ ms.length ∧ ms.length ≤ 2 ∧ (ms.all Char.isDigit) = true ∧
        1 ≤ ds.length ∧ ds.length ≤ 2 ∧ (ds.all Char.isDigit) = true then
      if 1 ≤ digitsToNat ms ∧ digitsToNat ms ≤ 12 ∧ 1 ≤ digitsToNat ds ∧
          digitsToNat ds ≤ daysInMonth (digitsToNat ys) (digitsToNat ms) then
        some ⟨digitsToNat ys, digitsToNat ms, digitsToNat ds⟩
      else none
    else none
  | _ => none

/-- A row of the expenses table. -/
structure Expense where
  id : Nat
  user_id : Nat
  title : Option String
  category : String
  amount : ℚ
  date : Date
  description : Option String
  split_with : Option String
deriving DecidableEq, Repr

/-- A row of the incomes table. -/
structure Income where
  id : Nat
  user_id : Nat
  source : Option String
  amount : ℚ
  date : Date
  description : Option String
deriving DecidableEq, Repr

/-- A row of the budgets table; the stored YYYY-MM month token is modelled
as a (year, month) pair. -/
structure Budget where
  id : Nat
  user_id : Nat
  category : String
  month : Nat × Nat
  amount : ℚ
deriving DecidableEq, Repr

/-- The sqlite database, tables in insertion order. -/
structure Store where
  expenses : List Expense
  incomes : List Income
  budgets : List Budget
deriving DecidableEq, Repr

/-- _spent_in_category_month (src/main.py:173): month-to-date spend of one
user in one category, the month matched via strftime %Y-%m. -/
def spent_in_category_month (es : List Expense) (uid : Nat) (cat : String)
    (ym : Nat × Nat) : ℚ :=
  ((es.filter fun e => decide (e.user_id = uid ∧ e.category = cat ∧ monthOf e.date = ym)).map
    Expense.amount).sum

/-- _spent_total_month (src/main.py:180): month-to-date spend of one user
over all categories, the month matched via BETWEEN on month_bounds. -/
def spent_total_month (es : List Expense) (uid : Nat) (y m : Nat) : ℚ :=
  ((es.filter fun e =>
      decide (e.user_id = uid) && dateLE (month_bounds y m).1 e.date &&
        dateLE e.date (month_bounds y m).2).map
    Expense.amount).sum

/-- SELECT amount FROM budgets WHERE user_id=? AND category=? AND month=?
(first matching row, as fetchone). -/
def findBudget (bs : List Budget) (uid : Nat) (cat : String) (ym : Nat × Nat) :
    Option Budget :=
  bs.find? fun b => decide (b.user_id = uid ∧ b.category = cat ∧ b.month = ym)

/-- round(x, 2): two-decimal display rounding, on exact rationals.  (Python
rounds float ties to even; ties do not arise at the inputs considered.) -/
def round2 (q : ℚ) : ℚ := (round (q * 100) : ℚ) / 100

/-- Flash messages produced by the post-write budget checks in add_expense;
the payloads carry the rounded amounts interpolated into the message text. -/
inductive BudgetMsg where
  | catExceeded (cat : String) (ym : Nat × Nat) (spent budget : ℚ)
  | catWarning (cat : String) (ym : Nat × Nat) (spent budget : ℚ)
  | totalExceeded (ym : Nat × Nat) (spent budget : ℚ)
  | totalWarning (ym : Nat × Nat) (spent budget : ℚ)
deriving DecidableEq, Repr

/-- The three-way test shared by both post-write checks (src/main.py:237-248
and src/main.py:258-269): the exceeded message when spent > budget, else the
warning message when spent >= 0.75 * budget, else no message. -/
def budgetCheck (exceededMsg warningMsg : BudgetMsg) (spent budget : ℚ) :
    List BudgetMsg :=
  if spent > budget then [exceededMsg]
  else if spent ≥ (3 / 4 : ℚ) * budget then [warningMsg]
  else []

/-- The two budget checks run after the INSERT commits (src/main.py:229-269),
reading the already-updated store s. -/
def postWriteMsgs (s : Store) (uid : Nat) (cat : String) (ym : Nat × Nat) :
    List BudgetMsg :=
  let catMsgs :=
    match findBudget s.budgets uid cat ym with
    | some b =>
      if cat ≠ TOTAL_BUDGET_KEY then
        budgetCheck
          (.catExceeded cat ym (round2 (spent_in_category_month s.expenses uid cat ym))
            (round2 b.amount))
          (.catWarning cat ym (round2 (spent_in_category_month s.expenses uid cat ym))
            (round2 b.amount))
          (spent_in_category_month s.expenses uid cat ym) b.amount
      else []
    | none => []
  let totMsgs :=
    match findBudget s.budgets uid TOTAL_BUDGET_KEY ym with
    | some b =>
      budgetCheck
        (.totalExceeded ym (round2 (spent_total_month s.expenses uid ym.1 ym.2))
          (round2 b.amount))
        (.totalWarning ym (round2 (spent_total_month s.expenses uid ym.1 ym.2))
          (round2 b.amount))
        (spent_total_month s.expenses uid ym.1 ym.2) b.amount
    | none => []
  catMsgs ++ totMsgs

/-- An uncaught ValueError from float(...), the spec's ValidationError: the
request dies before any store write. -/
inductive ValidationError where
  | invalidNumber
deriving DecidableEq, Repr

/-- LARGE_EXPENSE_THRESHOLD (src/main.py:39, env default "5000"). -/
def LARGE_EXPENSE_THRESHOLD : ℚ := 5000

/-- POST /add (add_expense, src/main.py:205-274): normalize the category,
parse the amount (raising on a nonempty non-numeric field), fall back to
today when the date field is absent or unparseable, INSERT the row, commit,
then run the post-write budget checks against the updated store.  Returns
the new store, the flashed budget messages, and the notify_large flag; the
messages and flag are returned only, never persisted. -/
def add_expense (uid : Nat)
    (title categoryRaw amountRaw dateRaw desc splitWithRaw : Option String)
    (today : Date) (newId : Nat) (s : Store) :
    Except ValidationError (Store × List BudgetMsg × Bool) :=
  let category := normalize_category (some (pyOr categoryRaw "Uncategorized"))
  match pyFloatOr0 amountRaw with
  | none => .error .invalidNumber
  | some amount =>
    let when_ : Date :=
      match dateRaw with
      | none => today
      | some ds => if ds = "" then today else (parseDate ds).getD today
    let row : Expense := ⟨newId, uid, title, category, amount, when_, desc, splitWithRaw⟩
    let s2 : Store := { s with expenses := s.expenses ++ [row] }
    .ok (s2, postWriteMsgs s2 uid category (monthOf when_),
      decide (amount ≥ LARGE_EXPENSE_THRESHOLD))

/-- POST /add_income (src/main.py:282-296); the route performs no date
validation, so the stored date field is modelled as the resolved value. -/
def add_income (uid : Nat) (source amountRaw : Option String) (dateVal : Date)
    (desc : Option String) (newId : Nat) (s : Store) : Except ValidationError Store :=
  match pyFloatOr0 amountRaw with
  | none => .error .invalidNumber
  | some amount =>
    .ok { s with incomes := s.incomes ++ [⟨newId, uid, source, amount, dateVal, desc⟩] }

/-- INSERT OR REPLACE into budgets under UNIQUE(user_id, category, month). -/
def upsertBudget (bs : List Budget) (uid : Nat) (cat : String) (ym : Nat × Nat)
    (amount : ℚ) (newId : Nat) : List Budget :=
  (bs.filter fun b => !decide (b.user_id = uid ∧ b.category = cat ∧ b.month = ym)) ++
    [⟨newId, uid, cat, ym, amount⟩]

/-- POST /budgets (src/main.py:423-441): normalize the category, parse the
amount with float (raising on every non-numeric field, the empty string
included), then upsert. -/
def budgets_post (uid : Nat) (categoryRaw : String) (ym : Nat × Nat)
    (amountRaw : String) (newId : Nat) (s : Store) : Except ValidationError Store :=
  let cat := normalize_category (some categoryRaw)
  match pyFloat amountRaw with
  | none => .error .invalidNumber
  | some amount => .ok { s with budgets := upsertBudget s.budgets uid cat ym amount newId }

/-- Dashboard per-category percent (src/main.py:351):
round(spent/amt*100, 2) if amt else 0. -/
def dashboard_pct (spent amt : ℚ) : ℚ :=
  if amt ≠ 0 then round2 (spent / amt * 100) else 0

/-- /api/budget_status percent (src/main.py:487): divides only when amt > 0. -/
def api_pct (spent amt : ℚ) : ℚ :=
  if amt > 0 then round2 (spent / amt * 100) else 0

/-- Dashboard month listing of one user's expenses (src/main.py:325); the
route then orders the filtered rows by date, a deterministic function of
this list. -/
def listExpensesMonth (es : List Expense) (uid : Nat) (y m : Nat) : List Expense :=
  es.filter fun e =>
    decide (e.user_id = uid) && dateLE (month_bounds y m).1 e.date &&
      dateLE e.date (month_bounds y m).2

/-- Dashboard month income total (src/main.py:313). -/
def income_total_month (rows : List Income) (uid : Nat) (y m : Nat) : ℚ :=
  ((rows.filter fun r =>
      decide (r.user_id = uid) && dateLE (month_bounds y m).1 r.date &&
        dateLE r.date (month_bounds y m).2).map
    Income.amount).sum

/-- SELECT ... FROM budgets WHERE user_id=? AND month=? (src/main.py:336). -/
def listBudgetsMonth (bs : List Budget) (uid : Nat) (ym : Nat × Nat) : List Budget :=
  bs.filter fun b => decide (b.user_id = uid ∧ b.month = ym)

/-- POST /delete/expense/<id> (src/main.py:757). -/
def delete_expense (es : List Expense) (eid uid : Nat) : List Expense :=
  es.filter fun e => !decide (e.id = eid ∧ e.user_id = uid)

/-- POST /delete/income/<id> (src/main.py:768). -/
def delete_income (rows : List Income) (iid uid : Nat) : List Income :=
  rows.filter fun r => !decide (r.id = iid ∧ r.user_id = uid)

/-- POST /delete_budget/<id> (src/main.py:463). -/
def delete_budget (bs : List Budget) (bid uid : Nat) : List Budget :=
  bs.filter fun b => !decide (b.id = bid ∧ b.user_id = uid)

/-- POST /delete/all (src/main.py:779-780): clears the user's expenses and
incomes; budgets are untouched. -/
def delete_all (s : Store) (uid : Nat) : Store :=
  { s with
      expenses := s.expenses.filter fun e => !decide (e.user_id = uid),
      incomes := s.incomes.filter fun r => !decide (r.user_id = uid) }

/-- Per-user spend on one calendar day: the per-date GROUP BY sum with the
by_day.get(d, 0.0) default folded in (a day with no rows sums to 0). -/
def sumOnDate (es : List Expense) (uid : Nat) (d : Date) : ℚ :=
  ((es.filter fun e => decide (e.user_id = uid ∧ e.date = d)).map Expense.amount).sum

/-- /api/trend/<days> (src/main.py:658-677): labels are the last days
calendar days ending today inclusive, oldest first; each value is the
2-decimal-rounded spend on that day, 0 when the day has no rows. -/
def api_trend (uid : Nat) (today : Date) (days : Nat) (es : List Expense) :
    List Date × List ℚ :=
  let start := subDays today (days - 1)
  let labels := (List.range days).map fun i => addDays start i
  (labels, labels.map fun d => round2 (sumOnDate es uid d))

/-- /api/predict_next_month (src/main.py:724-750), as a function of the
ordered historical month totals. -/
def predict_next_month (totals : List ℚ) : ℚ × String :=
  match totals with
  | [] => (0, "Add some data to see insights")
  | t :: ts =>
    let pred : ℚ :=
      if 2 ≤ (t :: ts).length then
        round2 (ts.getLastD t +
          (List.zipWith (fun a b => a - b) ts (t :: ts)).sum /
            ((List.zipWith (fun a b => a - b) ts (t :: ts)).length : ℚ))
      else round2 (ts.getLastD t)
    let avg : ℚ := (t :: ts).sum / ((t :: ts).length : ℚ)
    let advice : String :=
      if pred > avg * (11 / 10 : ℚ) then
        "Spending likely to grow. Try reducing top categories by ~10%."
      else if pred < avg * (9 / 10 : ℚ) then
        "Great job! Predicted spend below average."
      else "On track"
    (pred, advice)

/-- Every month has at least one day. -/
theorem daysInMonth_pos (y m : Nat) : 1 ≤ daysInMonth y m := by
  unfold daysInMonth
  split_ifs <;> omega

/-- The first component of month_bounds is day 1 of the month. -/
theorem month_bounds_fst (y m : Nat) : (month_bounds y m).1 = ⟨y, m, 1⟩ := rfl

/-- The day before the next month's first day is the true Gregorian last day
of the month, leap years included. -/
theorem month_bounds_snd (y m : Nat) (h1 : 1 ≤ m) (h2 : m ≤ 12) :
    (month_bounds y m).2 = ⟨y, m, daysInMonth y m⟩ := by
  by_cases hm : m = 12
  · subst hm; rfl
  · simp only [month_bounds, if_neg hm, subOneDay]
    rw [if_neg (by omega : ¬ (1:Nat) < 1), if_pos (by omega : 1 < m + 1)]
    simp

/-- A successfully parsed date is calendar-valid. -/
theorem parseDate_valid (s : String) (d : Date) (h : parseDate s = some d) : d.Valid := by
  unfold parseDate at h
  split at h
  · split_ifs at h with h1 h2
    injection h with h'
    subst h'
    exact ⟨h2.1, h2.2.1, h2.2.2.1, h2.2.2.2⟩
  · exact absurd h (by simp)

/-- A valid date is on or after the first day of its month. -/
theorem dateLE_first (w : Date) (hv : w.Valid) :
    dateLE ⟨w.year, w.month, 1⟩ w = true := by
  obtain ⟨h1, h2, h3, h4⟩ := hv
  simp [dateLE]
  omega

/-- A valid date is on or before the last day of its month. -/
theorem dateLE_last (w : Date) (hv : w.Valid) :
    dateLE w ⟨w.year, w.month, daysInMonth w.year w.month⟩ = true := by
  obtain ⟨h1, h2, h3, h4⟩ := hv
  simp [dateLE]
  omega

/-- Appending a matching row adds its amount to the category-month sum. -/
theorem spent_in_category_month_append (es : List Expense) (e : Expense) (uid : Nat)
    (cat : String) (ym : Nat × Nat)
    (h : e.user_id = uid ∧ e.category = cat ∧ monthOf e.date = ym) :
    spent_in_category_month (es ++ [e]) uid cat ym =
      spent_in_category_month es uid cat ym + e.amount := by
  simp [spent_in_category_month, List.filter_append, h]

/-- Appending an in-range row adds its amount to the whole-month sum. -/
theorem spent_total_month_append (es : List Expense) (e : Expense) (uid y m : Nat)
    (h1 : e.user_id = uid) (h2 : dateLE (month_bounds y m).1 e.date = true)
    (h3 : dateLE e.date (month_bounds y m).2 = true) :
    spent_total_month (es ++ [e]) uid y m = spent_total_month es uid y m + e.amount := by
  simp [spent_total_month, List.filter_append, h1, h2, h3]

/-- C1: for every budget row with budget amount B > 0 and month-to-date
spent S, the post-write check classifies exactly by the ratio S/B: no
message when S/B < 0.75, the warning message when 0.75 <= S/B <= 1 (both
endpoints included), and the exceeded message when S/B > 1 strictly. -/
theorem budget_check_classifies_by_spent_over_budget (eMsg wMsg : BudgetMsg) (S B : ℚ)
    (hB : 0 < B) :
    (S / B < 3 / 4 → budgetCheck eMsg wMsg S B = []) ∧
    (3 / 4 ≤ S / B → S / B ≤ 1 → budgetCheck eMsg wMsg S B = [wMsg]) ∧
    (1 < S / B → budgetCheck eMsg wMsg S B = [eMsg]) := by
  refine ⟨fun h => ?_, fun h h2 => ?_, fun h => ?_⟩
  · have hS : S < 3 / 4 * B := by
      have := (div_lt_iff₀ hB).mp h
      linarith
    have h3 : ¬ S > B := by nlinarith
    have h4 : ¬ S ≥ 3 / 4 * B := by linarith
    simp [budgetCheck, h3, h4]
  · have hS1 : 3 / 4 * B ≤ S := by
      have := (le_div_iff₀ hB).mp h
      linarith
    have hS2 : S ≤ B := (div_le_one hB).mp h2
    have h3 : ¬ S > B := not_lt.mpr hS2
    simp [budgetCheck, h3, hS1]
  · have hS : B < S := (one_lt_div hB).mp h
    simp [budgetCheck, hS]

/-- C1 witness: the exact 0.75 boundary — spent 3 on budget 4 flashes the
warning message, not the exceeded one and not nothing. -/
theorem budget_check_classifies_witness :
    budgetCheck (.catExceeded "Food" (2025, 6) 3 4) (.catWarning "Food" (2025, 6) 3 4) 3 4
      = [.catWarning "Food" (2025, 6) 3 4] :=
  (budget_check_classifies_by_spent_over_budget
    (.catExceeded "Food" (2025, 6) 3 4) (.catWarning "Food" (2025, 6) 3 4) 3 4
    (by norm_num)).2.1 (by norm_num) (by norm_num)

/-- C2 counterexample: a budget row stored with amount 0 and a 50-unit
expense in its category and month — the post-write check flashes the
exceeded message, although the claim says a zero budget amount is state OK
with no message for positive spent. -/
theorem zero_budget_counterexample :
    add_expense 7 none (some "Food") (some "50") (some "2025-06-15") none none
        ⟨2025, 6, 14⟩ 2 ⟨[], [], [⟨1, 7, "Food", (2025, 6), 0⟩]⟩
      = .ok (⟨[⟨2, 7, none, "Food", 50, ⟨2025, 6, 15⟩, none, none⟩], [],
              [⟨1, 7, "Food", (2025, 6), 0⟩]⟩,
             [.catExceeded "Food" (2025, 6) 50 0], false) := by
  decide

/-- C2 amended: a zero stored budget amount yields reported percent 0 in
both the dashboard and the status API (the division is never attempted),
but the post-write check does not treat it as state OK: any positive spent
flashes the exceeded message, and even zero spent flashes the warning
message, because the check compares the amounts directly rather than
forming the ratio. -/
theorem zero_budget_percent_zero_but_message_fires (eMsg wMsg : BudgetMsg) (S : ℚ)
    (hS : 0 < S) :
    dashboard_pct S 0 = 0 ∧ api_pct S 0 = 0 ∧
    budgetCheck eMsg wMsg S 0 = [eMsg] ∧ budgetCheck eMsg wMsg 0 0 = [wMsg] := by
  refine ⟨by simp [dashboard_pct], by simp [api_pct], ?_, by simp [budgetCheck]⟩
  simp [budgetCheck, hS]

/-- C2 amended witness: spent 5 against a stored zero budget. -/
theorem zero_budget_percent_zero_witness :
    dashboard_pct 5 0 = 0 ∧ api_pct 5 0 = 0 ∧
    budgetCheck (.catExceeded "Food" (2025, 6) 5 0) (.catWarning "Food" (2025, 6) 5 0) 5 0
      = [.catExceeded "Food" (2025, 6) 5 0] ∧
    budgetCheck (.catExceeded "Food" (2025, 6) 5 0) (.catWarning "Food" (2025, 6) 5 0) 0 0
      = [.catWarning "Food" (2025, 6) 5 0] :=
  zero_budget_percent_zero_but_message_fires
    (.catExceeded "Food" (2025, 6) 5 0) (.catWarning "Food" (2025, 6) 5 0) 5 (by norm_num)

/-- C4: for every valid year-month, month_bounds yields day 1 as the first
day and the day before the following month's first day as the last day,
with December rolling to January of the next year; the subtraction lands on
the true Gregorian month length, leap years handled via daysInMonth. -/
theorem month_bounds_first_and_last (y m : Nat) (h1 : 1 ≤ m) (h2 : m ≤ 12) :
    (month_bounds y m).1 = ⟨y, m, 1⟩ ∧
    (month_bounds y m).2 = subOneDay (if m = 12 then ⟨y + 1, 1, 1⟩ else ⟨y, m + 1, 1⟩) ∧
    (m = 12 → (month_bounds y m).2 = subOneDay ⟨y + 1, 1, 1⟩) ∧
    (month_bounds y m).2 = ⟨y, m, daysInMonth y m⟩ := by
  refine ⟨rfl, rfl, fun hm => ?_, month_bounds_snd y m h1 h2⟩
  subst hm; rfl

/-- C4 witness: February of the leap year 2024 runs from the 1st to the
29th. -/
theorem month_bounds_first_and_last_witness :
    month_bounds 2024 2 = (⟨2024, 2, 1⟩, ⟨2024, 2, 29⟩) := by
  have h := month_bounds_first_and_last 2024 2 (by norm_num) (by norm_num)
  have : (⟨2024, 2, daysInMonth 2024 2⟩ : Date) = ⟨2024, 2, 29⟩ := by decide
  exact Prod.ext h.1 (h.2.2.2.trans this)

/-- C5: the category normalizer trims whitespace; an empty or absent raw
category becomes "Uncategorized" at the expense-entry call site (which
defaults the field with `or`) and "General" at the budget-entry call site
(which passes the raw field straight to the normalizer); any input whose
trimmed form matches total/overall/all/* case-insensitively becomes the
sentinel total key at both sites; every other input is returned trimmed
with case preserved. -/
theorem normalize_category_classification (raw : String) :
    (expense_entry_category none = "Uncategorized" ∧
     expense_entry_category (some "") = "Uncategorized" ∧
     normalize_category none = "General" ∧
     normalize_category (some "") = "General") ∧
    (lower (strip raw) ∈ (["total", "overall", "all", "*"] : List String) →
      normalize_category (some raw) = TOTAL_BUDGET_KEY ∧
      expense_entry_category (some raw) = TOTAL_BUDGET_KEY) ∧
    (raw ≠ "" → lower (strip raw) ∉ (["total", "overall", "all", "*"] : List String) →
      normalize_category (some raw) = strip raw) := by
  refine ⟨⟨rfl, rfl, rfl, rfl⟩, fun hmem => ?_, fun hne hnmem => ?_⟩
  · have hne : raw ≠ "" := by
      rintro rfl
      revert hmem
      decide
    have hdisj : lower (strip raw) = "total" ∨ lower (strip raw) = "overall" ∨
        lower (strip raw) = "all" ∨ lower (strip raw) = "*" := by
      simpa using hmem
    constructor
    · simp [normalize_category, hne, hdisj]
    · simp [expense_entry_category, pyOr, normalize_category, hne, hdisj]
  · have hdisj : ¬ (lower (strip raw) = "total" ∨ lower (strip raw) = "overall" ∨
        lower (strip raw) = "all" ∨ lower (strip raw) = "*") := by
      simpa using hnmem
    simp [normalize_category, hne, hdisj]

/-- C5 witness: " all " (mixed spacing) normalizes to the sentinel key at
both call sites, and "Food" comes back unchanged. -/
theorem normalize_category_classification_witness :
    (normalize_category (some " all ") = TOTAL_BUDGET_KEY ∧
      expense_entry_category (some " all ") = TOTAL_BUDGET_KEY) ∧
    normalize_category (some "Food") = strip "Food" :=
  ⟨(normalize_category_classification " all ").2.1 (by decide),
   (normalize_category_classification "Food").2.2 (by decide) (by decide)⟩

/-- C3: with a parseable amount and date and a non-sentinel category, the
whole effect of add_expense is: the new row is appended to the expenses
table (incomes and budgets unchanged), and the returned messages are the
two budget checks evaluated at the pre-write sums PLUS the just-added
amount — i.e. the checks read the store after the write commits.  The
messages and the notify flag are only returned, never stored, so nothing
prevents the same warning from firing again on the next addition. -/
theorem add_expense_checks_updated_store (uid newId : Nat)
    (title categoryRaw amountRaw desc splitWithRaw : Option String)
    (today : Date) (s : Store) (a : ℚ) (ds : String) (w : Date)
    (cat : String) (ym : Nat × Nat)
    (hc : normalize_category (some (pyOr categoryRaw "Uncategorized")) = cat)
    (hym : monthOf w = ym)
    (hamt : pyFloatOr0 amountRaw = some a)
    (hdate : parseDate ds = some w)
    (hcat : cat ≠ TOTAL_BUDGET_KEY) :
    add_expense uid title categoryRaw amountRaw (some ds) desc splitWithRaw today newId s =
      .ok
        ({ s with expenses := s.expenses ++ [⟨newId, uid, title, cat, a, w, desc, splitWithRaw⟩] },
         (match findBudget s.budgets uid cat ym with
          | some b =>
            budgetCheck
              (.catExceeded cat ym
                (round2 (spent_in_category_month s.expenses uid cat ym + a)) (round2 b.amount))
              (.catWarning cat ym
                (round2 (spent_in_category_month s.expenses uid cat ym + a)) (round2 b.amount))
              (spent_in_category_month s.expenses uid cat ym + a) b.amount
          | none => []) ++
         (match findBudget s.budgets uid TOTAL_BUDGET_KEY ym with
          | some b =>
            budgetCheck
              (.totalExceeded ym
                (round2 (spent_total_month s.expenses uid ym.1 ym.2 + a)) (round2 b.amount))
              (.totalWarning ym
                (round2 (spent_total_month s.expenses uid ym.1 ym.2 + a)) (round2 b.amount))
              (spent_total_month s.expenses uid ym.1 ym.2 + a) b.amount
          | none => []),
         decide (a ≥ LARGE_EXPENSE_THRESHOLD)) := by
  have hv : w.Valid := parseDate_valid ds w hdate
  have hds : ds ≠ "" := by
    rintro rfl
    rw [show parseDate "" = none from rfl] at hdate
    exact Option.noConfusion hdate
  subst hc hym
  unfold add_expense
  rw [hamt]
  simp only [if_neg hds, hdate, Option.getD_some]
  have hrow : (⟨newId, uid, title, normalize_category (some (pyOr categoryRaw "Uncategorized")),
      a, w, desc, splitWithRaw⟩ : Expense).user_id = uid ∧
      (⟨newId, uid, title, normalize_category (some (pyOr categoryRaw "Uncategorized")),
        a, w, desc, splitWithRaw⟩ : Expense).category =
        normalize_category (some (pyOr categoryRaw "Uncategorized")) ∧
      monthOf (⟨newId, uid, title, normalize_category (some (pyOr categoryRaw "Uncategorized")),
        a, w, desc, splitWithRaw⟩ : Expense).date = monthOf w :=
    ⟨rfl, rfl, rfl⟩
  unfold postWriteMsgs
  simp only
  rw [spent_in_category_month_append _ _ _ _ _ hrow]
  rw [show (monthOf w).1 = w.year from rfl, show (monthOf w).2 = w.month from rfl]
  rw [spent_total_month_append _ _ _ w.year w.month rfl
    (by rw [month_bounds_fst]; exact dateLE_first w hv)
    (by rw [month_bounds_snd w.year w.month hv.1 hv.2.1]; exact dateLE_last w hv)]
  simp only [if_pos hcat]

/-- C3 witness: the spec scenario — a Food budget of 1000 for 2025-06 with
800 already spent; adding 300 more makes the check read 1100 and flash the
exceeded message, while the store gains exactly the one new row. -/
theorem add_expense_checks_updated_store_witness :
    add_expense 1 none (some "Food") (some "300") (some "2025-06-15") none none
        ⟨2025, 6, 1⟩ 2
        ⟨[⟨1, 1, none, "Food", 800, ⟨2025, 6, 10⟩, none, none⟩], [],
         [⟨1, 1, "Food", (2025, 6), 1000⟩]⟩
      = .ok (⟨[⟨1, 1, none, "Food", 800, ⟨2025, 6, 10⟩, none, none⟩,
               ⟨2, 1, none, "Food", 300, ⟨2025, 6, 15⟩, none, none⟩], [],
              [⟨1, 1, "Food", (2025, 6), 1000⟩]⟩,
             [.catExceeded "Food" (2025, 6) 1100 1000], false) := by
  rw [add_expense_checks_updated_store 1 2 none (some "Food") (some "300") none none
    ⟨2025, 6, 1⟩ _ 300 "2025-06-15" ⟨2025, 6, 15⟩ "Food" (2025, 6) (by decide) rfl (by decide)
    (by decide) (by decide)]
  decide

/-- C8 counterexample: the empty string is not numeric (Python float raises
a ValueError on it), yet add-expense does not fail: the `or 0` default
turns it into amount 0 and a row IS inserted. -/
theorem empty_amount_inserted_counterexample :
    pyFloat "" = none ∧
    add_expense 1 none none (some "") none none none ⟨2025, 6, 15⟩ 1 ⟨[], [], []⟩ =
      .ok (⟨[⟨1, 1, none, "Uncategorized", 0, ⟨2025, 6, 15⟩, none, none⟩], [], []⟩, [], false) :=
  ⟨rfl, by decide⟩

/-- C8 amended: a NONEMPTY non-numeric amount makes add-expense and
add-income fail with the validation error before anything reaches the store
(the returned error carries no store, the caller keeps the old one), and
budget-save fails this way for every non-numeric amount, the empty string
included; but an absent or empty amount at add-expense/add-income parses as
0 instead of failing. -/
theorem non_numeric_amount_rejected_before_write (uid newId : Nat)
    (title categoryRaw dateRaw desc splitWithRaw source : Option String)
    (today dateVal : Date) (s : Store) (categoryField : String) (ym : Nat × Nat)
    (amt1 amt2 : String) (h1 : amt1 ≠ "") (hp1 : pyFloat amt1 = none)
    (hp2 : pyFloat amt2 = none) :
    add_expense uid title categoryRaw (some amt1) dateRaw desc splitWithRaw today newId s =
      .error .invalidNumber ∧
    add_income uid source (some amt1) dateVal desc newId s = .error .invalidNumber ∧
    budgets_post uid categoryField ym amt2 newId s = .error .invalidNumber ∧
    pyFloatOr0 (some "") = some 0 ∧ pyFloatOr0 none = some 0 := by
  have hor : pyFloatOr0 (some amt1) = none := by simp [pyFloatOr0, h1, hp1]
  refine ⟨?_, ?_, ?_, rfl, rfl⟩
  · unfold add_expense; rw [hor]
  · unfold add_income; rw [hor]
  · unfold budgets_post; rw [hp2]

/-- C8 amended witness: "abc" is rejected by all three routes before any
write; "" is rejected by budget-save. -/
theorem non_numeric_amount_rejected_witness :
    add_expense 1 none none (some "abc") none none none ⟨2025, 6, 15⟩ 1 ⟨[], [], []⟩ =
      .error .invalidNumber ∧
    add_income 1 none (some "abc") ⟨2025, 6, 15⟩ none 1 ⟨[], [], []⟩ = .error .invalidNumber ∧
    budgets_post 1 "Food" (2025, 6) "" 1 ⟨[], [], []⟩ = .error .invalidNumber ∧
    pyFloatOr0 (some "") = some 0 ∧ pyFloatOr0 none = some 0 :=
  non_numeric_amount_rejected_before_write 1 1 none none none none none none
    ⟨2025, 6, 15⟩ ⟨2025, 6, 15⟩ ⟨[], [], []⟩ "Food" (2025, 6) "abc" ""
    (by decide) (by decide) (by decide)

/-- C10: an absent, empty, or unparseable date field never causes an error
or a rejection: the expense is inserted dated today, and the post-write
budget checks run in the month of that substituted date. -/
theorem invalid_date_falls_back_to_today (uid newId : Nat)
    (title categoryRaw amountRaw desc splitWithRaw : Option String)
    (today : Date) (s : Store) (a : ℚ) (cat : String)
    (hamt : pyFloatOr0 amountRaw = some a)
    (hc : normalize_category (some (pyOr categoryRaw "Uncategorized")) = cat)
    (dateRaw : Option String)
    (hbad : dateRaw = none ∨ dateRaw = some "" ∨
      ∃ ds, dateRaw = some ds ∧ parseDate ds = none) :
    add_expense uid title categoryRaw amountRaw dateRaw desc splitWithRaw today newId s =
      .ok
        ({ s with expenses :=
            s.expenses ++ [⟨newId, uid, title, cat, a, today, desc, splitWithRaw⟩] },
         postWriteMsgs
           { s with expenses :=
              s.expenses ++ [⟨newId, uid, title, cat, a, today, desc, splitWithRaw⟩] }
           uid cat (monthOf today),
         decide (a ≥ LARGE_EXPENSE_THRESHOLD)) := by
  subst hc
  unfold add_expense
  rw [hamt]
  rcases hbad with rfl | rfl | ⟨ds, rfl, hds⟩
  · rfl
  · rfl
  · by_cases hempty : ds = ""
    · subst hempty; rfl
    · simp only [if_neg hempty, hds, Option.getD_none]

/-- C10 witness: the garbage date "HELLO" is silently replaced by today. -/
theorem invalid_date_falls_back_witness :
    add_expense 1 none none none (some "HELLO") none none ⟨2025, 6, 15⟩ 1 ⟨[], [], []⟩ =
      .ok (⟨[⟨1, 1, none, "Uncategorized", 0, ⟨2025, 6, 15⟩, none, none⟩], [], []⟩, [], false) := by
  rw [invalid_date_falls_back_to_today 1 1 none none none none none ⟨2025, 6, 15⟩
    ⟨[], [], []⟩ 0 "Uncategorized" rfl (by decide) (some "HELLO")
    (Or.inr (Or.inr ⟨"HELLO", rfl, by decide⟩))]
  decide

/-- The month-over-month delta list has one entry per consecutive pair. -/
theorem zipWith_sub_length (ts : List ℚ) (t : ℚ) :
    (List.zipWith (fun a b => a - b) ts (t :: ts)).length = ts.length := by
  simp [List.length_zipWith]

/-- C6: the forecast returns prediction 0 with the fixed advice string on no
data; the single total (exactly, whenever that total is a 2-decimal value,
the display rounding being the identity there) on one data point; and the
last total plus the average month-over-month delta on two or more points;
the advice is chosen by comparing the prediction against the historical
average at the 110 and 90 percent thresholds; on totals [100, 120, 140] the
prediction is 160 with the growing advice. -/
theorem predict_next_month_spec :
    predict_next_month [] = (0, "Add some data to see insights") ∧
    (∀ t : ℚ, (predict_next_month [t]).1 = round2 t) ∧
    (∀ t : ℚ, round2 t = t → (predict_next_month [t]).1 = t) ∧
    (∀ (t : ℚ) (ts : List ℚ), ts ≠ [] →
      (predict_next_month (t :: ts)).1 =
        round2 (ts.getLastD t +
          (List.zipWith (fun a b => a - b) ts (t :: ts)).sum / (ts.length : ℚ))) ∧
    (∀ (t : ℚ) (ts : List ℚ),
      (predict_next_month (t :: ts)).2 =
        (if (predict_next_month (t :: ts)).1 >
            ((t :: ts).sum / (((t :: ts).length : ℕ) : ℚ)) * (11 / 10 : ℚ) then
          "Spending likely to grow. Try reducing top categories by ~10%."
        else if (predict_next_month (t :: ts)).1 <
            ((t :: ts).sum / (((t :: ts).length : ℕ) : ℚ)) * (9 / 10 : ℚ) then
          "Great job! Predicted spend below average."
        else "On track")) ∧
    predict_next_month [100, 120, 140] =
      (160, "Spending likely to grow. Try reducing top categories by ~10%.") := by
  refine ⟨rfl, fun t => rfl, fun t ht => (congrArg _ rfl).trans ht, ?_, fun t ts => rfl, by decide⟩
  intro t ts hne
  obtain ⟨t2, ts2, rfl⟩ : ∃ t2 ts2, ts = t2 :: ts2 := by
    cases ts with
    | nil => exact absurd rfl hne
    | cons a l => exact ⟨a, l, rfl⟩
  show (if 2 ≤ (t :: t2 :: ts2).length then _ else _) = _
  rw [if_pos (by simp), zipWith_sub_length]

/-- C6 witness: a single historical total of 7 predicts exactly 7. -/
theorem predict_next_month_witness : (predict_next_month [(7 : ℚ)]).1 = 7 :=
  predict_next_month_spec.2.2.1 7 (by decide)

/-- Iterated day-increment commutes with a single increment. -/
theorem addOneDay_addDays (d : Date) (n : Nat) :
    addDays (addOneDay d) n = addOneDay (addDays d n) := by
  induction n with
  | zero => rfl
  | succ n ih => show addOneDay (addDays (addOneDay d) n) = _; rw [ih]; rfl

/-- addDays formulated with the increment on the left. -/
theorem addDays_succ_left (d : Date) (n : Nat) :
    addDays d (n + 1) = addDays (addOneDay d) n := by
  rw [addOneDay_addDays]; rfl

/-- Stepping one day back preserves validity and lowers the year by at most
one (and never raises it). -/
theorem subOneDay_valid (d : Date) (hv : d.Valid) :
    (subOneDay d).Valid ∧ d.year ≤ (subOneDay d).year + 1 ∧ (subOneDay d).year ≤ d.year := by
  obtain ⟨y, m, dy⟩ := d
  obtain ⟨h1, h2, h3, h4⟩ := hv
  replace h1 : 1 ≤ m := h1
  replace h2 : m ≤ 12 := h2
  replace h3 : 1 ≤ dy := h3
  replace h4 : dy ≤ daysInMonth y m := h4
  have e1 : subOneDay ⟨y, m, dy⟩ =
      if 1 < dy then ⟨y, m, dy - 1⟩
      else if 1 < m then ⟨y, m - 1, daysInMonth y (m - 1)⟩
      else ⟨y - 1, 12, 31⟩ := rfl
  rw [e1]
  split_ifs with hd hm
  · exact ⟨⟨h1, h2, (by omega : 1 ≤ dy - 1), (by omega : dy - 1 ≤ daysInMonth y m)⟩,
      (by omega : y ≤ y + 1), (by omega : y ≤ y)⟩
  · exact ⟨⟨(by omega : 1 ≤ m - 1), (by omega : m - 1 ≤ 12), daysInMonth_pos y (m - 1),
      le_refl (daysInMonth y (m - 1))⟩, (by omega : y ≤ y + 1), (by omega : y ≤ y)⟩
  · exact ⟨⟨(by omega : (1:Nat) ≤ 12), (by omega : (12:Nat) ≤ 12), (by omega : (1:Nat) ≤ 31),
      (by simp [daysInMonth] : (31:Nat) ≤ daysInMonth (y - 1) 12)⟩,
      (by omega : y ≤ y - 1 + 1), (by omega : y - 1 ≤ y)⟩

/-- Stepping forward undoes stepping back, away from the calendar origin. -/
theorem addOneDay_subOneDay (d : Date) (hv : d.Valid) (hy : 1 ≤ d.year) :
    addOneDay (subOneDay d) = d := by
  obtain ⟨y, m, dy⟩ := d
  obtain ⟨h1, h2, h3, h4⟩ := hv
  replace h1 : 1 ≤ m := h1
  replace h2 : m ≤ 12 := h2
  replace h3 : 1 ≤ dy := h3
  replace h4 : dy ≤ daysInMonth y m := h4
  replace hy : 1 ≤ y := hy
  have e1 : subOneDay ⟨y, m, dy⟩ =
      if 1 < dy then ⟨y, m, dy - 1⟩
      else if 1 < m then ⟨y, m - 1, daysInMonth y (m - 1)⟩
      else ⟨y - 1, 12, 31⟩ := rfl
  rw [e1]
  split_ifs with hd hm
  · have e2 : addOneDay ⟨y, m, dy - 1⟩ =
        if dy - 1 < daysInMonth y m then ⟨y, m, dy - 1 + 1⟩
        else if m < 12 then ⟨y, m + 1, 1⟩ else ⟨y + 1, 1, 1⟩ := rfl
    rw [e2, if_pos (by omega : dy - 1 < daysInMonth y m)]
    simp only [Date.mk.injEq]
    exact ⟨trivial, trivial, by omega⟩
  · have e2 : addOneDay ⟨y, m - 1, daysInMonth y (m - 1)⟩ =
        if daysInMonth y (m - 1) < daysInMonth y (m - 1) then ⟨y, m - 1, daysInMonth y (m - 1) + 1⟩
        else if m - 1 < 12 then ⟨y, m - 1 + 1, 1⟩ else ⟨y + 1, 1, 1⟩ := rfl
    rw [e2, if_neg (lt_irrefl (daysInMonth y (m - 1))), if_pos (by omega : m - 1 < 12)]
    simp only [Date.mk.injEq]
    exact ⟨trivial, by omega, by omega⟩
  · have e2 : addOneDay ⟨y - 1, 12, 31⟩ =
        if 31 < daysInMonth (y - 1) 12 then ⟨y - 1, 12, 31 + 1⟩
        else if 12 < 12 then ⟨y - 1, 12 + 1, 1⟩ else ⟨y - 1 + 1, 1, 1⟩ := rfl
    rw [e2, if_neg (by simp [daysInMonth] : ¬ 31 < daysInMonth (y - 1) 12),
      if_neg (lt_irrefl 12)]
    simp only [Date.mk.injEq]
    exact ⟨by omega, by omega, by omega⟩

/-- Stepping back n days from a valid date stays valid and loses at most n
years, as long as the calendar origin is not crossed. -/
theorem subDays_valid (d : Date) (hv : d.Valid) :
    ∀ n, n < d.year → (subDays d n).Valid ∧ d.year ≤ (subDays d n).year + n := by
  intro n
  induction n with
  | zero => exact fun _ => ⟨hv, (by omega : d.year ≤ d.year + 0)⟩
  | succ n ih =>
    intro hn
    obtain ⟨hvn, hyn⟩ := ih (by omega)
    obtain ⟨hv1, hy1, hy2⟩ := subOneDay_valid (subDays d n) hvn
    have e : subDays d (n + 1) = subOneDay (subDays d n) := rfl
    rw [e]
    exact ⟨hv1, by omega⟩

/-- Adding back the days that were subtracted returns to the start date. -/
theorem addDays_subDays (d : Date) (hv : d.Valid) :
    ∀ n, n < d.year → addDays (subDays d n) n = d := by
  intro n
  induction n with
  | zero => exact fun _ => rfl
  | succ n ih =>
    intro hn
    obtain ⟨hvn, hyn⟩ := subDays_valid d hv n (by omega)
    have hy1 : 1 ≤ (subDays d n).year := by omega
    obtain ⟨hvs, _, _⟩ := subOneDay_valid (subDays d n) hvn
    calc addDays (subDays d (n + 1)) (n + 1)
        = addDays (addOneDay (subOneDay (subDays d n))) n := addDays_succ_left _ n
      _ = addDays (subDays d n) n := by rw [addOneDay_subOneDay (subDays d n) hvn hy1]
      _ = d := ih (by omega)

/-- getD on a mapped range evaluates the function at the index. -/
theorem getD_map_range {α : Type} (f : Nat → α) (n i : Nat) (d0 : α) (h : i < n) :
    ((List.range n).map f).getD i d0 = f i := by
  rw [List.getD_eq_getElem?_getD]
  simp [List.getElem?_map, List.getElem?_range h]

/-- C7: for every positive number of days (bounded by today's year so the
window stays inside the calendar), the trend series has exactly `days`
labels and `days` values; the labels are consecutive calendar days, oldest
first, starting `days - 1` days before today and ending today inclusive;
each value is the 2-decimal-rounded spend of its day, and a day with no
matching transactions gets the value 0. -/
theorem api_trend_window (uid days : Nat) (today : Date) (es : List Expense)
    (hd : 0 < days) (hv : today.Valid) (hy : days ≤ today.year) :
    (api_trend uid today days es).1.length = days ∧
    (api_trend uid today days es).2.length = days ∧
    (api_trend uid today days es).1.getD 0 ⟨0, 0, 0⟩ = subDays today (days - 1) ∧
    (api_trend uid today days es).1.getD (days - 1) ⟨0, 0, 0⟩ = today ∧
    (∀ i, i + 1 < days →
      (api_trend uid today days es).1.getD (i + 1) ⟨0, 0, 0⟩ =
        addOneDay ((api_trend uid today days es).1.getD i ⟨0, 0, 0⟩)) ∧
    (∀ i, i < days →
      (api_trend uid today days es).2.getD i 0 =
        round2 (sumOnDate es uid ((api_trend uid today days es).1.getD i ⟨0, 0, 0⟩))) ∧
    (∀ i, i < days →
      (∀ e ∈ es, ¬(e.user_id = uid ∧ e.date = (api_trend uid today days es).1.getD i ⟨0, 0, 0⟩)) →
      (api_trend uid today days es).2.getD i 0 = 0) := by
  have hL : (api_trend uid today days es).1 =
      (List.range days).map (fun i => addDays (subDays today (days - 1)) i) := rfl
  have hD : (api_trend uid today days es).2 =
      (List.range days).map
        (fun i => round2 (sumOnDate es uid (addDays (subDays today (days - 1)) i))) := by
    show ((List.range days).map fun i => addDays (subDays today (days - 1)) i).map
        (fun d => round2 (sumOnDate es uid d)) = _
    rw [List.map_map]
    rfl
  refine ⟨?_, ?_, ?_, ?_, ?_, ?_, ?_⟩
  · rw [hL]; simp
  · rw [hD]; simp
  · rw [hL, getD_map_range _ _ _ _ hd]
    rfl
  · rw [hL, getD_map_range _ _ _ _ (by omega : days - 1 < days)]
    exact addDays_subDays today hv (days - 1) (by omega)
  · intro i hi
    rw [hL, getD_map_range _ _ _ _ hi, getD_map_range _ _ _ _ (by omega : i < days)]
    rfl
  · intro i hi
    rw [hL, hD, getD_map_range _ _ _ _ hi, getD_map_range _ _ _ _ hi]
  · intro i hi hnone
    rw [hL] at hnone
    rw [hD, getD_map_range _ _ _ _ hi]
    have hfil : es.filter
        (fun e => decide (e.user_id = uid ∧ e.date = addDays (subDays today (days - 1)) i)) = [] := by
      rw [List.filter_eq_nil_iff]
      intro e he
      have hne := hnone e he
      rw [getD_map_range _ _ _ _ hi] at hne
      simpa using hne
    show round2 (sumOnDate es uid (addDays (subDays today (days - 1)) i)) = 0
    unfold sumOnDate
    rw [hfil]
    simp [round2]

/-- C7 witness: a 2-day window ending 2025-06-15 on an empty store — the
last label is today and the first value is zero-filled. -/
theorem api_trend_window_witness :
    (api_trend 1 ⟨2025, 6, 15⟩ 2 []).1.getD 1 ⟨0, 0, 0⟩ = ⟨2025, 6, 15⟩ ∧
    (api_trend 1 ⟨2025, 6, 15⟩ 2 []).2.getD 0 0 = 0 :=
  ⟨(api_trend_window 1 2 ⟨2025, 6, 15⟩ [] (by norm_num) (by decide) (by norm_num)).2.2.2.1,
   (api_trend_window 1 2 ⟨2025, 6, 15⟩ [] (by norm_num) (by decide)
      (by norm_num)).2.2.2.2.2.2 0 (by norm_num) (by intro e he; cases he)⟩

/-- Two lists agreeing on a filter also agree on any finer filter. -/
theorem filter_restrict {α : Type} (p q : α → Bool) (himp : ∀ a, q a = true → p a = true)
    (l1 l2 : List α) (h : l1.filter p = l2.filter p) :
    l1.filter q = l2.filter q := by
  have key : ∀ l : List α, l.filter q = (l.filter p).filter q := by
    intro l
    rw [List.filter_filter]
    refine List.filter_congr ?_
    intro a _
    cases hq : q a with
    | false => simp
    | true => simp [himp a hq]
  rw [key l1, key l2, h]

/-- Removing rows that all belong to uid leaves any other user's rows
untouched. -/
theorem filter_not_cond_other {α : Type} (l : List α) (owner : α → Nat) (uid ouid : Nat)
    (hne : uid ≠ ouid) (c : α → Prop) [DecidablePred c] (himp : ∀ x, c x → owner x = uid) :
    (l.filter fun x => !decide (c x)).filter (fun x => decide (owner x = ouid)) =
      l.filter fun x => decide (owner x = ouid) := by
  rw [List.filter_filter]
  refine List.filter_congr ?_
  intro x _
  by_cases hx : c x
  · have ho : owner x = uid := himp x hx
    have hfalse : decide (owner x = ouid) = false := by
      simp [ho]
      exact hne
    simp [hfalse]
  · simp [hx]

/-- C9: two-run tenant isolation.  Every modelled read for user uid (the two
month spend sums, the per-day sum, the month listing, the month income
total, the month budget listing) returns the same result on any two stores
that agree on uid-owned rows, so no other user's data ever influences it;
and every delete for uid (single expense, single income, single budget, and
the bulk clear) leaves every other user's rows exactly unchanged — the bulk
clear also leaves the budgets table untouched entirely. -/
theorem tenant_isolation (uid ouid : Nat) (hne : uid ≠ ouid)
    (es1 es2 : List Expense)
    (hes : es1.filter (fun e => decide (e.user_id = uid)) =
           es2.filter (fun e => decide (e.user_id = uid)))
    (inc1 inc2 : List Income)
    (hinc : inc1.filter (fun r => decide (r.user_id = uid)) =
            inc2.filter (fun r => decide (r.user_id = uid)))
    (bs1 bs2 : List Budget)
    (hbs : bs1.filter (fun b => decide (b.user_id = uid)) =
           bs2.filter (fun b => decide (b.user_id = uid)))
    (cat : String) (ym : Nat × Nat) (y m : Nat) (d : Date) (eid iid bid : Nat) (s : Store) :
    spent_in_category_month es1 uid cat ym = spent_in_category_month es2 uid cat ym ∧
    spent_total_month es1 uid y m = spent_total_month es2 uid y m ∧
    sumOnDate es1 uid d = sumOnDate es2 uid d ∧
    listExpensesMonth es1 uid y m = listExpensesMonth es2 uid y m ∧
    income_total_month inc1 uid y m = income_total_month inc2 uid y m ∧
    listBudgetsMonth bs1 uid ym = listBudgetsMonth bs2 uid ym ∧
    (delete_expense es1 eid uid).filter (fun e => decide (e.user_id = ouid)) =
      es1.filter (fun e => decide (e.user_id = ouid)) ∧
    (delete_income inc1 iid uid).filter (fun r => decide (r.user_id = ouid)) =
      inc1.filter (fun r => decide (r.user_id = ouid)) ∧
    (delete_budget bs1 bid uid).filter (fun b => decide (b.user_id = ouid)) =
      bs1.filter (fun b => decide (b.user_id = ouid)) ∧
    (delete_all s uid).expenses.filter (fun e => decide (e.user_id = ouid)) =
      s.expenses.filter (fun e => decide (e.user_id = ouid)) ∧
    (delete_all s uid).incomes.filter (fun r => decide (r.user_id = ouid)) =
      s.incomes.filter (fun r => decide (r.user_id = ouid)) ∧
    (delete_all s uid).budgets = s.budgets := by
  refine ⟨?_, ?_, ?_, ?_, ?_, ?_, ?_, ?_, ?_, ?_, ?_, rfl⟩
  · unfold spent_in_category_month
    rw [filter_restrict _ _ (fun e h => decide_eq_true (of_decide_eq_true h).1) es1 es2 hes]
  · unfold spent_total_month
    rw [filter_restrict _ _
      (fun e h => by simp only [Bool.and_eq_true] at h; exact h.1.1) es1 es2 hes]
  · unfold sumOnDate
    rw [filter_restrict _ _ (fun e h => decide_eq_true (of_decide_eq_true h).1) es1 es2 hes]
  · exact filter_restrict _ _
      (fun e h => by simp only [Bool.and_eq_true] at h; exact h.1.1) es1 es2 hes
  · unfold income_total_month
    rw [filter_restrict _ _
      (fun r h => by simp only [Bool.and_eq_true] at h; exact h.1.1) inc1 inc2 hinc]
  · exact filter_restrict _ _
      (fun b h => decide_eq_true (of_decide_eq_true h).1) bs1 bs2 hbs
  · exact filter_not_cond_other es1 Expense.user_id uid ouid hne
      (fun e => e.id = eid ∧ e.user_id = uid) (fun e h => h.2)
  · exact filter_not_cond_other inc1 Income.user_id uid ouid hne
      (fun r => r.id = iid ∧ r.user_id = uid) (fun r h => h.2)
  · exact filter_not_cond_other bs1 Budget.user_id uid ouid hne
      (fun b => b.id = bid ∧ b.user_id = uid) (fun b h => h.2)
  · exact filter_not_cond_other s.expenses Expense.user_id uid ouid hne
      (fun e => e.user_id = uid) (fun e h => h)
  · exact filter_not_cond_other s.incomes Income.user_id uid ouid hne
      (fun r => r.user_id = uid) (fun r h => h)

/-- C9 witness: user 2's extra row neither changes user 1's category sum nor
survives being targeted by user 1's bulk clear — and user 1's bulk clear
keeps user 2's row intact. -/
theorem tenant_isolation_witness :
    spent_in_category_month [⟨1, 1, none, "Food", 10, ⟨2025, 6, 5⟩, none, none⟩] 1 "Food" (2025, 6)
      = spent_in_category_month
          [⟨1, 1, none, "Food", 10, ⟨2025, 6, 5⟩, none, none⟩,
           ⟨2, 2, none, "Food", 99, ⟨2025, 6, 6⟩, none, none⟩] 1 "Food" (2025, 6) ∧
    (delete_all
        ⟨[⟨1, 1, none, "Food", 10, ⟨2025, 6, 5⟩, none, none⟩,
          ⟨2, 2, none, "Food", 99, ⟨2025, 6, 6⟩, none, none⟩], [], []⟩ 1).expenses.filter
        (fun e => decide (e.user_id = 2)) =
      ([⟨1, 1, none, "Food", 10, ⟨2025, 6, 5⟩, none, none⟩,
        ⟨2, 2, none, "Food", 99, ⟨2025, 6, 6⟩, none, none⟩] : List Expense).filter
        (fun e => decide (e.user_id = 2)) := by
  have h := tenant_isolation 1 2 (by decide)
    [⟨1, 1, none, "Food", 10, ⟨2025, 6, 5⟩, none, none⟩]
    [⟨1, 1, none, "Food", 10, ⟨2025, 6, 5⟩, none, none⟩,
     ⟨2, 2, none, "Food", 99, ⟨2025, 6, 6⟩, none, none⟩] (by decide)
    [] [] rfl [] [] rfl "Food" (2025, 6) 2025 6 ⟨2025, 6, 5⟩ 1 1 1
    ⟨[⟨1, 1, none, "Food", 10, ⟨2025, 6, 5⟩, none, none⟩,
      ⟨2, 2, none, "Food", 99, ⟨2025, 6, 6⟩, none, none⟩], [], []⟩
  exact ⟨h.1, h.2.2.2.2.2.2.2.2.2.1⟩

end Minorfinal
